import Mathlib

/-!
Shallow embedding of the CompanyAssistant repository (a conversational
sales-assistant agent) for verification of its specification claims.

The embedding covers:
* the lead CRM (`src/database/crm.py` / `src/integrations/supabase_crm.py`):
  score-to-status mapping, `create_lead`, `update_lead`;
* the calendar tooling (`src/tools/calendar_tools.py`):
  `check_availability`, `suggest_alternative_times`, `parse_datetime`'s
  deterministic "next weekday" rewrite, `parse_duration`,
  `schedule_by_natural_with_lead_capture`;
* the lead qualification engine (`src/tools/lead_tools.py`):
  `assess_lead_with_llm`'s defensive score coercion;
* the retrieval tool (`src/rag/retriever.py`): `retriever_tool`'s
  relevance filtering and source attribution.

Modelling conventions: Python floats carrying scores and relevance values
are modelled as `ℚ` (all constants involved are exactly representable);
instants are modelled as minutes (a `ℚ` offset for interval arithmetic, and
`Nat` minutes since a Monday 00:00 epoch where weekday/hour arithmetic
matters); fallible code returns `Except`/`Option`; external collaborators
(Calendly free/busy, the language model, Google calendar, Google Sheets)
enter as explicit parameters.
-/

/-! ## Lead status and the score-to-status mapping
Source: `ApexCRM._score_to_status` (src/database/crm.py, lines 310-319) and
`SupabaseCRM._score_to_status` (src/integrations/supabase_crm.py, lines
282-291).  Both return decorated strings; the category is the same mapping,
the two backends differ only in the emoji used for the Cold string. -/

inductive Status where
  | cold
  | nurture
  | qualified
  | hot
deriving DecidableEq, Repr

/-- The categorical content of `_score_to_status` (identical in both
backends): `if score >= 8.0: Hot elif score >= 6.0: Qualified
elif score >= 4.0: Nurture else: Cold`. -/
def scoreToStatus (score : ℚ) : Status :=
  if score ≥ 8 then .hot
  else if score ≥ 6 then .qualified
  else if score ≥ 4 then .nurture
  else .cold

/-- `ApexCRM._score_to_status` returns these strings (src/database/crm.py). -/
def apexStatusString (score : ℚ) : String :=
  if score ≥ 8 then "🔥 Hot"
  else if score ≥ 6 then "⭐ Qualified"
  else if score ≥ 4 then "📋 Nurture"
  else "📝 Cold"

/-- `SupabaseCRM._score_to_status` returns these strings
(src/integrations/supabase_crm.py). -/
def supabaseStatusString (score : ℚ) : String :=
  if score ≥ 8 then "🔥 Hot"
  else if score ≥ 6 then "⭐ Qualified"
  else if score ≥ 4 then "📋 Nurture"
  else "🧊 Cold"

/-- Ordering used to state monotonicity: Cold < Nurture < Qualified < Hot. -/
def statusRank : Status → Nat
  | .cold => 0
  | .nurture => 1
  | .qualified => 2
  | .hot => 3

/-! ## The lead store (`ApexCRM`, src/database/crm.py)
A lead row of the `leads` table.  `created_at`/`updated_at` are ISO strings
produced from `datetime.utcnow()`; we model the clock as an abstract `Nat`
passed in by the caller.  The status column stores the category (see above;
the stored string is `apexStatusString`, determined by the category). -/

structure Lead where
  id : Nat
  name : String
  email : String
  company : String
  interest : String
  lead_score : ℚ
  status : Status
  qualification_notes : String
  meeting_id : String
  meeting_time : String
  source : String
  created_at : Nat
  updated_at : Nat
deriving DecidableEq, Repr

/-- The CRM database state: the `leads` table plus the AUTOINCREMENT
counter for the next primary key. -/
structure CRM where
  nextId : Nat
  leads : List Lead
deriving DecidableEq, Repr

/-- `ApexCRM.create_lead` (src/database/crm.py, lines 102-156):
`if status is None: status = self._score_to_status(lead_score)`, then a row
is INSERTed with `created_at = updated_at = now` and the fresh AUTOINCREMENT
id is returned. -/
def createLead (crm : CRM) (now : Nat)
    (name email company interest : String) (lead_score : ℚ)
    (status : Option Status)
    (qualification_notes meeting_id meeting_time source : String) :
    CRM × Nat :=
  let st := status.getD (scoreToStatus lead_score)
  let lead : Lead :=
    { id := crm.nextId, name := name, email := email, company := company
      interest := interest, lead_score := lead_score, status := st
      qualification_notes := qualification_notes, meeting_id := meeting_id
      meeting_time := meeting_time, source := source
      created_at := now, updated_at := now }
  (⟨crm.nextId + 1, crm.leads ++ [lead]⟩, crm.nextId)

/-- The `**kwargs` of `ApexCRM.update_lead`: every updatable column is
optionally present; absent fields are left unchanged by the UPDATE. -/
structure LeadPatch where
  name : Option String := none
  email : Option String := none
  company : Option String := none
  interest : Option String := none
  lead_score : Option ℚ := none
  status : Option Status := none
  qualification_notes : Option String := none
  meeting_id : Option String := none
  meeting_time : Option String := none
  source : Option String := none
deriving DecidableEq, Repr

/-- `if not kwargs: return False` - the patch carries no field. -/
def LeadPatch.isEmpty (p : LeadPatch) : Bool :=
  p.name.isNone && p.email.isNone && p.company.isNone && p.interest.isNone
    && p.lead_score.isNone && p.status.isNone && p.qualification_notes.isNone
    && p.meeting_id.isNone && p.meeting_time.isNone && p.source.isNone

/-- Effect of the dynamically built `UPDATE leads SET ... WHERE id = ?` on a
single row: exactly the supplied columns are overwritten, plus
`updated_at = now` (`kwargs['updated_at'] = datetime.utcnow().isoformat()`).
No column is recomputed from another. -/
def applyPatch (l : Lead) (p : LeadPatch) (now : Nat) : Lead :=
  { l with
    name := p.name.getD l.name
    email := p.email.getD l.email
    company := p.company.getD l.company
    interest := p.interest.getD l.interest
    lead_score := p.lead_score.getD l.lead_score
    status := p.status.getD l.status
    qualification_notes := p.qualification_notes.getD l.qualification_notes
    meeting_id := p.meeting_id.getD l.meeting_id
    meeting_time := p.meeting_time.getD l.meeting_time
    source := p.source.getD l.source
    updated_at := now }

/-- `ApexCRM.update_lead` (src/database/crm.py, lines 227-250): empty kwargs
return False; otherwise the UPDATE touches the row whose id matches and the
returned boolean is `rowcount > 0`. -/
def updateLead (crm : CRM) (lead_id : Nat) (p : LeadPatch) (now : Nat) :
    CRM × Bool :=
  if p.isEmpty then (crm, false)
  else
    (⟨crm.nextId,
      crm.leads.map (fun l => if l.id = lead_id then applyPatch l p now else l)⟩,
     crm.leads.any (fun l => l.id = lead_id))

/-- `ApexCRM.get_lead`: `SELECT * FROM leads WHERE id = ?` (first match). -/
def getLead (crm : CRM) (lead_id : Nat) : Option Lead :=
  crm.leads.find? (fun l => l.id = lead_id)

/-- The consistency predicate of the spec's Lead invariant. -/
def statusConsistent (l : Lead) : Prop :=
  l.status = scoreToStatus l.lead_score

/-! ## Availability checking (src/tools/calendar_tools.py, lines 72-113)
Instants are minutes as `ℚ`.  The Calendly free/busy call
(`list_busy_times` + the per-slot ISO parsing, lines 84-95) is an external
collaborator; `check_availability` wraps its whole body in `try/except`, so
we model that step as an `Except` value: any exception anywhere in the body
lands in the `except` branch. -/

structure Availability where
  available : Bool
  conflicts : List (ℚ × ℚ)
deriving DecidableEq, Repr

/-- The overlap test of `check_availability`, line 98:
`if not (end_dt <= slot_start or start_dt >= slot_end)`. -/
def overlaps (start_dt end_dt slot_start slot_end : ℚ) : Bool :=
  !(decide (end_dt ≤ slot_start) || decide (start_dt ≥ slot_end))

/-- `check_availability(start_dt, end_dt)`: on success, collect the busy
slots that overlap the requested interval; `available` iff no conflicts
(`len(conflicts) == 0`).  On any exception, return
`{"available": True, "conflicts": []}` ("assume available to not block
booking"). -/
def checkAvailability (start_dt end_dt : ℚ)
    (busyResult : Except String (List (ℚ × ℚ))) : Availability :=
  match busyResult with
  | .error _ => ⟨true, []⟩
  | .ok busy_slots =>
      let conflicts := busy_slots.filter
        (fun slot => overlaps start_dt end_dt slot.1 slot.2)
      ⟨conflicts.isEmpty, conflicts⟩

/-! ## Alternative-time suggestion (src/tools/calendar_tools.py, lines 115-178)
Here weekday/hour arithmetic matters, so an instant is `Nat` minutes since a
Monday 00:00 epoch.  The availability probe (`check_availability` over the
live calendar) is abstracted as an oracle `avail : start → end → Bool`. -/

/-- `t.hour` for a minutes-since-Monday-midnight instant. -/
def hourOf (t : Nat) : Nat := t % 1440 / 60

/-- `t.weekday()` (Python: Monday = 0, ..., Sunday = 6). -/
def weekdayOf (t : Nat) : Nat := t / 1440 % 7

/-- `current_time.replace(hour=9, minute=0, second=0, microsecond=0)`. -/
def replaceHour9 (t : Nat) : Nat := t / 1440 * 1440 + 9 * 60

/-- `while next_day.weekday() >= 5: next_day += timedelta(days=1)` -
unrolled: from Saturday the loop runs twice, from Sunday once, otherwise
not at all (weekdays only increase towards Monday, so this is exact). -/
def skipWeekend (t : Nat) : Nat :=
  if weekdayOf t = 5 then t + 2 * 1440
  else if weekdayOf t = 6 then t + 1440
  else t

/-- The post-increment adjustment of the search loop (lines 154-163):
`if current_time.hour < 9 or current_time.hour >= 18:` move to 9 AM (next
day when the walk ran past 18:00), then skip weekends. -/
def adjustToBusinessHours (t : Nat) : Nat :=
  if hourOf t < 9 ∨ 18 ≤ hourOf t then
    skipWeekend (replaceHour9 t + (if 18 ≤ hourOf t then 1440 else 0))
  else t

/-- A candidate slot `{"start": current_time, "end": current_end}`. -/
structure Slot where
  start : Nat
  finish : Nat
deriving DecidableEq, Repr

/-- The `while len(suggestions) < num_suggestions and attempts < max_attempts`
loop of `suggest_alternative_times`: probe the current start, collect it when
the oracle reports the slot free, step one hour and adjust.  Returns the
suggestions together with the number of probes performed (one
`check_availability` call per iteration). -/
def suggestGo (avail : Nat → Nat → Bool) (duration numSuggestions : Nat) :
    Nat → Nat → List Slot → List Slot × Nat
  | 0, _, acc => (acc, 0)
  | fuel + 1, current, acc =>
      if numSuggestions ≤ acc.length then (acc, 0)
      else
        let currentEnd := current + duration
        let acc' := if avail current currentEnd
          then acc ++ [⟨current, currentEnd⟩] else acc
        let next := adjustToBusinessHours (current + 60)
        let rec' := suggestGo avail duration numSuggestions fuel next acc'
        (rec'.1, rec'.2 + 1)

/-- `suggest_alternative_times(start_text, duration_text, num_suggestions)`
after parsing: `max_attempts = 50`, `attempts = 0`, `suggestions = []`,
starting from the originally requested instant.  `none` models the
"No available alternative times found" message. -/
def suggestAlternativeTimes (avail : Nat → Nat → Bool)
    (original_start duration : Nat) (num_suggestions : Nat) :
    Option (List Slot) :=
  let r := suggestGo avail duration num_suggestions 50 original_start []
  if r.1.isEmpty then none else some r.1

/-- Number of availability probes the search performs. -/
def suggestProbes (avail : Nat → Nat → Bool)
    (original_start duration : Nat) (num_suggestions : Nat) : Nat :=
  (suggestGo avail duration num_suggestions 50 original_start []).2

/-! ## Duration parsing (src/tools/calendar_tools.py, lines 255-275)
`parse_duration` lowercases and strips the text, then tries four regex
patterns in order with `re.match` (anchored at the start, a prefix match
suffices).  Each pattern below is hand-compiled to a matcher over the
character list; greedy repetition with the one-level fallback of the
optional pieces reproduces the regex backtracking (character classes of
adjacent atoms are disjoint, so greedy runs never need to be shortened).
A `timedelta` is modelled as its total minutes in `ℚ`. -/

/-- Python `str.lower()` (ASCII case folding suffices for the texts here). -/
def strLower (s : String) : String := ⟨s.toList.map Char.toLower⟩

/-- Python `str.strip()`: drop surrounding whitespace. -/
def pyStripChars (cs : List Char) : List Char :=
  ((cs.dropWhile Char.isWhitespace).reverse.dropWhile Char.isWhitespace).reverse

/-- Leading `\d+` (at least one digit), returning the digits and the rest. -/
def splitDigits (cs : List Char) : Option (List Char × List Char) :=
  let ds := cs.takeWhile Char.isDigit
  if ds.isEmpty then none else some (ds, cs.drop ds.length)

/-- Numeric value of a digit run. -/
def digitsToNat (ds : List Char) : Nat :=
  ds.foldl (fun n c => 10 * n + (c.toNat - 48)) 0

/-- `\s*`. -/
def dropSpaces (cs : List Char) : List Char := cs.dropWhile Char.isWhitespace

/-- An optional literal `(?:lit)?`: try consuming it (greedy), fall back to
not consuming it when the continuation fails. -/
def tryLit (lit : List Char) (cs : List Char) (k : List Char → Option α) :
    Option α :=
  if lit.isPrefixOf cs then
    match k (cs.drop lit.length) with
    | some r => some r
    | none => k cs
  else k cs

/-- Patterns 1 and 2, `(?P<value>\d+(?:\.\d+)?)\s*(?P<unit>h|hr|hour|hours)`
and the `m|min|minute|minutes` twin: digits, an optional fraction, optional
whitespace, then the unit.  Because nothing follows the unit group, the
leftmost alternative (the single letter) matches exactly when the next
character is that letter.  Returns the captured value. -/
def matchValueUnit (unit : Char) (cs : List Char) : Option ℚ :=
  match splitDigits cs with
  | none => none
  | some (ds, rest) =>
      let vr : ℚ × List Char :=
        match rest with
        | '.' :: more =>
            match splitDigits more with
            | some (fs, after) =>
                ((digitsToNat ds : ℚ) + (digitsToNat fs : ℚ) / (10 ^ fs.length : ℚ),
                 after)
            | none => ((digitsToNat ds : ℚ), rest)
        | _ => ((digitsToNat ds : ℚ), rest)
      match dropSpaces vr.2 with
      | c :: _ => if c = unit then some vr.1 else none
      | [] => none

/-- Pattern 3:
`(?P<hours>\d+)\s*h(?:our)?s?\s*(?P<minutes>\d+)\s*m(?:in)?(?:ute)?s?`.
After the literal `m` every remaining piece is optional, so the match
succeeds as soon as `m` is seen. -/
def matchCombinedShort (cs : List Char) : Option (Nat × Nat) :=
  match splitDigits cs with
  | none => none
  | some (hs, r1) =>
      match dropSpaces r1 with
      | 'h' :: r2 =>
          tryLit "our".toList r2 (fun r3 =>
            tryLit "s".toList r3 (fun r4 =>
              match splitDigits (dropSpaces r4) with
              | none => none
              | some (ms, r5) =>
                  match dropSpaces r5 with
                  | 'm' :: _ => some (digitsToNat hs, digitsToNat ms)
                  | _ => none))
      | _ => none

/-- Pattern 4: `(?P<hours>\d+)\s*hours?\s*(?P<minutes>\d+)\s*minutes?`. -/
def matchCombinedLong (cs : List Char) : Option (Nat × Nat) :=
  match splitDigits cs with
  | none => none
  | some (hs, r1) =>
      if "hour".toList.isPrefixOf (dropSpaces r1) then
        tryLit "s".toList ((dropSpaces r1).drop 4) (fun r2 =>
          match splitDigits (dropSpaces r2) with
          | none => none
          | some (ms, r3) =>
              if "minute".toList.isPrefixOf (dropSpaces r3) then
                some (digitsToNat hs, digitsToNat ms)
              else none)
      else none

/-- `parse_duration(text)` (lines 255-275): `t = text.lower().strip()`; try
the four patterns in order; the first match wins.  For patterns 1/2 the
groupdict carries `value`/`unit`, so the `"value" in g` branch fires and
yields `timedelta(hours=v)` when the unit starts with `h`, else
`timedelta(minutes=v)`; for patterns 3/4 the groupdict carries
`hours`/`minutes` and the combined branch fires.  No match raises
`ValueError(f"Unrecognized duration: ...")`.  Result in minutes. -/
def parseDuration (text : String) : Except String ℚ :=
  let t := pyStripChars (strLower text).toList
  match matchValueUnit 'h' t with
  | some v => .ok (60 * v)
  | none =>
    match matchValueUnit 'm' t with
    | some v => .ok v
    | none =>
      match matchCombinedShort t with
      | some hm => .ok (60 * hm.1 + hm.2)
      | none =>
        match matchCombinedLong t with
        | some hm => .ok (60 * hm.1 + hm.2)
        | none => .error ("Unrecognized duration: " ++ text)

/-! ## The "next weekday" rewrite of `parse_datetime`
(src/tools/calendar_tools.py, lines 220-253).  The deterministic first step
matches `\s*next\s+(\w+)(.*)` case-insensitively; when group 1 names a
weekday, the text is rewritten to `f"{date_str}{rest}"` where `date_str` is
the ISO date `days_ahead` days after the reference.  The subsequent
`dateparser` call and the LLM fallback are external collaborators; we model
the reference instant by its day number (days since some Monday, so
`ref.weekday() = refDay % 7`) and expose the rewritten day number. -/

/-- `\w` = `[a-zA-Z0-9_]`. -/
def isWordChar (c : Char) : Bool := c.isAlphanum || c = '_'

/-- `re.match(r"\s*next\s+(\w+)(.*)", text, re.I)`: leading whitespace, the
literal `next` (any case), at least one whitespace, a maximal word-character
run (group 1), and the rest of the text (group 2; `.` does not cross a
newline, which we elide as the inputs here are single lines). -/
def matchNextWeekday (text : String) : Option (String × String) :=
  match text.toList.dropWhile Char.isWhitespace with
  | c1 :: c2 :: c3 :: c4 :: rest =>
      if c1.toLower = 'n' && c2.toLower = 'e' && c3.toLower = 'x'
          && c4.toLower = 't' then
        let ws := rest.takeWhile Char.isWhitespace
        if ws.isEmpty then none
        else
          let r2 := rest.drop ws.length
          let word := r2.takeWhile isWordChar
          if word.isEmpty then none
          else some (word.asString, (r2.drop word.length).asString)
      else none
  | _ => none

/-- The `WEEKDAYS` dict (lines 220-223), looked up with `group(1).lower()`. -/
def weekdayIndex (w : String) : Option Nat :=
  if w = "monday" then some 0
  else if w = "tuesday" then some 1
  else if w = "wednesday" then some 2
  else if w = "thursday" then some 3
  else if w = "friday" then some 4
  else if w = "saturday" then some 5
  else if w = "sunday" then some 6
  else none

/-- `days_ahead = (target - today + 7) % 7 or 7` (line 239).  Both operands
lie in `0..6`, so the Python int expression is nonnegative and agrees with
the `Nat` form `(target + 7 - today) % 7`; `or 7` replaces a zero by 7. -/
def daysAhead (target today : Nat) : Nat :=
  if (target + 7 - today) % 7 = 0 then 7 else (target + 7 - today) % 7

/-- Outcome of the deterministic rewrite step of `parse_datetime`. -/
inductive RewriteResult where
  | rewritten (day : Nat) (rest : String)
  | unchanged (text : String)
deriving DecidableEq, Repr

/-- The `"next <weekday>"` branch of `parse_datetime` (lines 234-241):
`if m and m.group(1).lower() in WEEKDAYS`, the text becomes the ISO date of
`ref + timedelta(days=days_ahead)` followed by group 2; otherwise the text
is handed unchanged to the downstream parsers. -/
def parseDatetimeRewrite (text : String) (refDay : Nat) : RewriteResult :=
  match matchNextWeekday text with
  | some (w, rest) =>
      match weekdayIndex (strLower w) with
      | some target => .rewritten (refDay + daysAhead target (refDay % 7)) rest
      | none => .unchanged text
  | none => .unchanged text

/-! ## The retriever tool (src/rag/retriever.py)
`MIN_RELEVANCE` (line 36) is the configured relevance threshold (default
0.7), installed on the retriever built in `_initialize`.  `retriever_tool`
(lines 253-385) however queries the vector store directly
(`similarity_search_with_relevance_scores`, no threshold) and filters the
scored results itself at the hard-coded 0.35.  The similarity search and
the LLM synthesis are external; the tool's filtering, branch structure and
source attribution are modelled.  Emptied of its f-string prose, each
"not found" reply is a constructor. -/

def MIN_RELEVANCE : ℚ := 7/10

structure ScoredDoc where
  content : String
  source : String
  score : ℚ
deriving DecidableEq, Repr

inductive RetrievalResult where
  /-- "I couldn't find specific information about ... in our knowledge base." -/
  | noResults
  /-- "I found some information but it wasn't relevant enough ..." -/
  | nothingRelevant
  /-- The LLM-synthesised reply: `combined` is the chunk text handed to the
  model, `sources` the attributed source set. -/
  | answer (combined : String) (sources : List String)
deriving DecidableEq, Repr

/-- The filtering core of `retriever_tool` (lines 285-376): empty search
results reply "couldn't find"; results are filtered by `score >= 0.35`; an
empty filtrate replies "wasn't relevant enough"; otherwise the first three
relevant chunks are joined (capped at 3000 characters) for synthesis and
the distinct sources of all relevant chunks are attributed (the source
sorts them for display; we keep first-occurrence order). -/
def retrieverTool (docs_with_scores : List ScoredDoc) : RetrievalResult :=
  if docs_with_scores.isEmpty then .noResults
  else
    let relevant := docs_with_scores.filter (fun d => d.score ≥ 35/100)
    if relevant.isEmpty then .nothingRelevant
    else
      .answer
        ((String.intercalate "\n\n---\n\n"
          ((relevant.map (fun d => d.content.trim)).take 3)).take 3000)
        ((relevant.map (fun d => d.source)).dedup)

/-- Sources cited by a retrieval reply: both "not found" replies cite none. -/
def citedSources : RetrievalResult → List String
  | .answer _ sources => sources
  | _ => []

/-- Whether the reply is a composed answer (as opposed to "not found"). -/
def isComposedAnswer : RetrievalResult → Bool
  | .answer _ _ => true
  | _ => false

/-! ## Lead assessment (src/tools/lead_tools.py, lines 46-134)
`assess_lead_with_llm` asks the model for JSON and parses defensively.  The
model call and JSON extraction are external: `LLMAssessOutcome.failure`
covers an API error or unparseable JSON (both land in the outer `except`),
`parsed` carries the fields of the decoded object, with the `lead_score`
field as a JSON number or string (`parsed.get("lead_score", 0)` supplies
the number 0 when the key is missing). -/

/-- `float()` on the numeric-literal strings relevant here: optional
surrounding whitespace, optional sign, digits with an optional fraction
(exponent and inf/nan literal forms elided - every branch downstream is
clamped regardless). -/
def pyFloatCore (cs : List Char) : Option ℚ :=
  match splitDigits cs with
  | some (ds, rest) =>
      match rest with
      | [] => some (digitsToNat ds : ℚ)
      | '.' :: more =>
          let fs := more.takeWhile Char.isDigit
          if (more.drop fs.length).isEmpty then
            some ((digitsToNat ds : ℚ) + (digitsToNat fs : ℚ) / (10 ^ fs.length : ℚ))
          else none
      | _ => none
  | none =>
      match cs with
      | '.' :: more =>
          match splitDigits more with
          | some (fs, rest) =>
              if rest.isEmpty then
                some ((digitsToNat fs : ℚ) / (10 ^ fs.length : ℚ))
              else none
          | none => none
      | _ => none

def pyFloatOfString (s : String) : Option ℚ :=
  match pyStripChars s.toList with
  | '+' :: r => pyFloatCore r
  | '-' :: r => (pyFloatCore r).map Neg.neg
  | cs => pyFloatCore cs

/-- `re.findall(r"[\d\.]+", s)`: the maximal runs of digits and dots. -/
def numRuns : List Char → List Char → List (List Char)
  | [], acc => if acc.isEmpty then [] else [acc.reverse]
  | c :: cs, acc =>
      if c.isDigit || c = '.' then numRuns cs (c :: acc)
      else if acc.isEmpty then numRuns cs acc
      else acc.reverse :: numRuns cs []

def findallNums (s : String) : List String :=
  (numRuns s.toList []).map List.asString

/-- The JSON value found under `lead_score`. -/
inductive ScoreField where
  | num (q : ℚ)
  | str (s : String)
deriving DecidableEq, Repr

/-- The score coercion (lines 113-118): `float(score_raw)`; on failure,
`re.findall(r"[\d\.]+", str(score_raw))` and `float(nums[0])` when
nonempty, else `0.0`.  A failing `float(nums[0])` (e.g. a run of dots)
propagates out of the inner `except` to the outer handler. -/
def coerceScore : ScoreField → Except String ℚ
  | .num q => .ok q
  | .str s =>
      match pyFloatOfString s with
      | some q => .ok q
      | none =>
          match findallNums s with
          | [] => .ok 0
          | n :: _ =>
              match pyFloatOfString n with
              | some q => .ok q
              | none => .error "could not convert string to float"

/-- Python `round(x, 1)`: nearest multiple of 1/10, ties to even (the
float-representation wrinkles of `round` are elided; the claim's bounds are
insensitive to the tie rule). -/
def pyRound1 (q : ℚ) : ℚ :=
  let n : ℤ := ⌊q * 10⌋
  let frac : ℚ := q * 10 - n
  let rounded : ℤ :=
    if frac < 1/2 then n
    else if 1/2 < frac then n + 1
    else if n % 2 = 0 then n else n + 1
  (rounded : ℚ) / 10

structure AssessResult where
  summary : String
  lead_score : ℚ
  qualification_reason : String
deriving DecidableEq, Repr

inductive LLMAssessOutcome where
  | failure
  | parsed (summary : String) (score_raw : ScoreField) (reason : String)
deriving DecidableEq, Repr

/-- The default returned by the outer `except` (lines 128-134):
`raw_notes or "No summary available"`, score 5.0. -/
def assessDefault (raw_notes : String) : AssessResult :=
  ⟨if raw_notes = "" then "No summary available" else raw_notes, 5,
   "Assessment failed, default scoring applied"⟩

/-- `assess_lead_with_llm` as a function of the model outcome: coerce the
score and apply `max(0.0, min(10.0, round(lead_score, 1)))` (line 120); any
exception yields the default. -/
def assessLeadWithLlm (raw_notes : String) (outcome : LLMAssessOutcome) :
    AssessResult :=
  match outcome with
  | .failure => assessDefault raw_notes
  | .parsed summary raw reason =>
      match coerceScore raw with
      | .error _ => assessDefault raw_notes
      | .ok q => ⟨summary, max 0 (min 10 (pyRound1 q)), reason⟩

/-! ## Scheduling with lead capture (src/tools/calendar_tools.py, lines
281-421).  `schedule_by_natural_with_lead_capture` parses, checks
availability, books, then captures the lead.  The external effects enter as
parameters: the parse step (its `ParseError`/`ValueError` lands in the
outer `except`), the free/busy step inside `check_availability`, the
`suggest_alternative_times` reply, the Google-calendar create call (which
can itself raise, or return a falsy event), and the
`auto_capture_meeting_lead` call whose exception the inner `try/except` of
lines 385-397 converts into a warning string.  Nothing after a successful
create deletes or modifies the created event. -/

structure GoogleEvent where
  id : String
  htmlLink : String
  conferenceEntryPoints : List String
deriving DecidableEq, Repr

/-- Meet-link extraction (lines 378-382): first entry point, "N/A" when
conference data is absent or empty. -/
def meetLinkOf (e : GoogleEvent) : String :=
  e.conferenceEntryPoints.head?.getD "N/A"

/-- Title auto-generation (lines 348-350). -/
def autoTitle (title attendee_name : String) : String :=
  if title = "" then "Narsun Studios Consultation - " ++ attendee_name
  else title

/-- Description auto-generation (lines 352-359). -/
def autoDescription (description attendee_name organization
    project_description : String) : String :=
  if description = "" then
    String.intercalate " "
      (["Meeting with " ++ attendee_name]
        ++ (if organization = "" then [] else ["from " ++ organization])
        ++ (if project_description = "" then []
            else ["regarding: " ++ project_description]))
  else description

inductive ScheduleOutcome where
  /-- The outer `except`: "❌ Error scheduling meeting ...". -/
  | errorMessage (msg : String)
  /-- "⚠️ The requested time slot is not available." with the conflict list
  and the alternative suggestions. -/
  | slotUnavailable (conflicts : List (ℚ × ℚ)) (alternatives : String)
  /-- "❌ Failed to create meeting." (falsy event). -/
  | createFailed
  /-- The success confirmation (lines 399-418) bundling the booking and the
  lead-capture outcome. -/
  | success (title eventId htmlLink meetLink leadStatus : String)
deriving DecidableEq, Repr

/-- The `lead_capture_result` of lines 384-397. -/
def leadStatusLine : Except String String → String
  | .ok msg => msg
  | .error e => "⚠️ Lead capture failed: " ++ e

def scheduleByNaturalWithLeadCapture
    (parseResult : Except String (ℚ × ℚ))
    (busyResult : Except String (List (ℚ × ℚ)))
    (alternatives : String)
    (createEvent : Except String (Option GoogleEvent))
    (captureResult : Except String String)
    (attendee_name organization project_description title description :
      String) : ScheduleOutcome :=
  match parseResult with
  | .error e =>
      .errorMessage ("❌ Error scheduling meeting with availability check: " ++ e)
  | .ok sd =>
      let availability := checkAvailability sd.1 (sd.1 + sd.2) busyResult
      if !availability.available then
        .slotUnavailable availability.conflicts alternatives
      else
        match createEvent with
        | .error e =>
            .errorMessage
              ("❌ Error scheduling meeting with availability check: " ++ e)
        | .ok none => .createFailed
        | .ok (some event) =>
            .success (autoTitle title attendee_name) event.id event.htmlLink
              (meetLinkOf event) (leadStatusLine captureResult)

/-! ## Theorems -/

/-- Claim C5: for every lead score s, the score-to-status mapping yields Hot
iff s ≥ 8, Qualified iff 6 ≤ s < 8, Nurture iff 4 ≤ s < 6, Cold iff s < 4,
and it is monotonic non-decreasing under Cold < Nurture < Qualified < Hot. -/
theorem score_to_status_spec :
    (∀ s : ℚ,
      (scoreToStatus s = .hot ↔ 8 ≤ s) ∧
      (scoreToStatus s = .qualified ↔ 6 ≤ s ∧ s < 8) ∧
      (scoreToStatus s = .nurture ↔ 4 ≤ s ∧ s < 6) ∧
      (scoreToStatus s = .cold ↔ s < 4)) ∧
    (∀ s t : ℚ, s ≤ t →
      statusRank (scoreToStatus s) ≤ statusRank (scoreToStatus t)) := by
  constructor
  · intro s
    unfold scoreToStatus
    split_ifs with h1 h2 h3 <;>
      refine ⟨?_, ?_, ?_, ?_⟩ <;> simp <;> try constructor
    all_goals first
      | linarith
      | (intro h; linarith)
      | (intro h h'; linarith)
      | (rintro ⟨h, h'⟩; linarith)
  · intro s t hst
    unfold scoreToStatus statusRank
    split_ifs <;> simp <;> linarith

/-- Witness for the monotonicity hypothesis of `score_to_status_spec`. -/
theorem score_to_status_spec_witness :
    statusRank (scoreToStatus 3) ≤ statusRank (scoreToStatus (17/2)) :=
  score_to_status_spec.2 3 (17/2) (by norm_num)

/-- Claim C7: the availability check reports a conflict exactly for
half-open interval overlap, `start < busy_end` and `busy_start < end`; the
slot [10:00,11:00) conflicts with busy [10:30,10:45) and not with busy
[11:00,12:00) (times in minutes: 600-660 vs 630-645 and 660-720). -/
theorem availability_conflict_iff :
    (∀ start_dt end_dt slot_start slot_end : ℚ,
        overlaps start_dt end_dt slot_start slot_end = true ↔
          (start_dt < slot_end ∧ slot_start < end_dt)) ∧
    (checkAvailability 600 660 (.ok [(630, 645)])).available = false ∧
    (checkAvailability 600 660 (.ok [(630, 645)])).conflicts = [(630, 645)] ∧
    (checkAvailability 600 660 (.ok [(660, 720)])).available = true ∧
    (checkAvailability 600 660 (.ok [(660, 720)])).conflicts = [] := by
  refine ⟨?_, by decide, by decide, by decide, by decide⟩
  intro s e bs be
  unfold overlaps
  simp only [Bool.not_eq_true', Bool.or_eq_false_iff, decide_eq_false_iff_not,
    not_le, ge_iff_le]
  exact and_comm

/-- Claim C10: when the free/busy query (or any other step of the body)
raises, `check_availability` reports the slot available with an empty
conflict list instead of propagating the error. -/
theorem availability_error_assumes_available :
    ∀ (start_dt end_dt : ℚ) (err : String),
      checkAvailability start_dt end_dt (.error err) = ⟨true, []⟩ := by
  intro start_dt end_dt err
  rfl

/-- Claim C2 (failing inputs): `parse_duration` is matched by the
hours-only pattern on both "1h30m" and "1 hour 30 minutes" (the regex
alternation `h|hr|hour|hours` succeeds on the bare `h`, and `re.match`
needs only a prefix), so both return 60 minutes, not the 90 the spec
states; "xyz" matches no pattern and raises.  The combined patterns 3 and 4
exist in the source precisely for these inputs but are unreachable: any
text they match starts with digits followed by `h`, which pattern 1 already
matches. -/
theorem parse_duration_combined_forms_bug :
    parseDuration "1h30m" = .ok 60 ∧
    parseDuration "1 hour 30 minutes" = .ok 60 ∧
    parseDuration "xyz" = .error "Unrecognized duration: xyz" ∧
    matchCombinedShort "1h30m".toList = some (1, 30) ∧
    matchCombinedLong "1 hour 30 minutes".toList = some (1, 30) := by
  have h1 : parseDuration "1h30m" = .ok (60 * ((1 : ℕ) : ℚ)) := rfl
  have h2 : parseDuration "1 hour 30 minutes" = .ok (60 * ((1 : ℕ) : ℚ)) := rfl
  refine ⟨?_, ?_, rfl, rfl, rfl⟩
  · rw [h1]; norm_num
  · rw [h2]; norm_num

/-- `WEEKDAYS` only maps to indices 0..6. -/
theorem weekdayIndex_lt (w : String) (t : Nat) (h : weekdayIndex w = some t) :
    t < 7 := by
  unfold weekdayIndex at h
  split_ifs at h <;> (injection h with h; omega)

/-- Claim C6: on text matching `next <weekday>`, the deterministic rewrite
of `parse_datetime` resolves to the next occurrence of that weekday
strictly after the reference day, 7 days later when the reference day
already is that weekday, and hands the remaining text on unchanged.
Concretely, with the reference Wednesday 2024-01-03 (day 2 from the Monday
2024-01-01 epoch, weekday 2), "next monday 3pm" rewrites to day 7 - the
date 2024-01-08 - with " 3pm" preserved for the downstream time parse;
day 7 is neither 0 (2024-01-01) nor 2 (the reference day itself). -/
theorem parse_datetime_next_weekday :
    (∀ (refDay : Nat) (text w rest : String) (target : Nat),
      matchNextWeekday text = some (w, rest) →
      weekdayIndex (strLower w) = some target →
      ∃ d, parseDatetimeRewrite text refDay = .rewritten d rest ∧
        refDay < d ∧ d ≤ refDay + 7 ∧ d % 7 = target ∧
        (refDay % 7 = target → d = refDay + 7)) ∧
    parseDatetimeRewrite "next monday 3pm" 2 = .rewritten 7 " 3pm" := by
  constructor
  · intro refDay text w rest target hm hw
    refine ⟨refDay + daysAhead target (refDay % 7), ?_, ?_, ?_, ?_, ?_⟩
    · simp [parseDatetimeRewrite, hm, hw]
    all_goals
      have ht : target < 7 := weekdayIndex_lt _ _ hw
      have hr : refDay % 7 < 7 := Nat.mod_lt _ (by norm_num)
      unfold daysAhead
      split_ifs with h0 <;> omega
  · rfl

/-- Witness for `parse_datetime_next_weekday` at "next friday" from day 9
(a Wednesday). -/
theorem parse_datetime_next_weekday_witness :
    ∃ d, parseDatetimeRewrite "next friday" 9 = .rewritten d "" ∧
      9 < d ∧ d ≤ 9 + 7 ∧ d % 7 = 4 ∧ (9 % 7 = 4 → d = 9 + 7) :=
  parse_datetime_next_weekday.1 9 "next friday" "friday" "" 4 rfl rfl

/-- `pyRound1` always produces an integer number of tenths. -/
theorem pyRound1_tenths (q : ℚ) : ∃ k : ℤ, pyRound1 q = (k : ℚ) / 10 :=
  ⟨_, rfl⟩

/-- Rounding a value whose tenfold is an integer is exact. -/
theorem pyRound1_int (q : ℚ) (m : ℤ) (h : q * 10 = (m : ℚ)) :
    pyRound1 q = (m : ℚ) / 10 := by
  unfold pyRound1
  rw [h]
  norm_num

/-- The clamp of line 120 stays within the interval. -/
theorem clamp_bounds (x : ℚ) :
    0 ≤ max 0 (min 10 x) ∧ max 0 (min 10 x) ≤ 10 :=
  ⟨le_max_left 0 _, max_le (by norm_num) (min_le_left 10 x)⟩

/-- The clamp of a number of tenths is a number of tenths. -/
theorem clamp_tenths (x : ℚ) (k : ℤ) (h : x = (k : ℚ) / 10) :
    ∃ m : ℤ, max 0 (min 10 x) = (m : ℚ) / 10 := by
  rcases le_total x 0 with hx | hx
  · refine ⟨0, ?_⟩
    rw [max_eq_left (le_trans (min_le_right 10 x) hx)]
    norm_num
  · rcases le_total x 10 with hx2 | hx2
    · refine ⟨k, ?_⟩
      rw [min_eq_right hx2, max_eq_right hx, h]
    · refine ⟨100, ?_⟩
      rw [min_eq_left hx2, max_eq_right (by norm_num : (0:ℚ) ≤ 10)]
      norm_num

/-- Claim C8: whatever the language model returns, the assessed score lies
in [0, 10] and is a whole number of tenths; a complete failure yields the
in-range default 5.0; out-of-range numbers are clamped (15 → 10, -3 → 0)
and a non-numeric string like "8.5/10" is regex-coerced to 8.5. -/
theorem assess_score_clamped :
    (∀ (raw_notes : String) (outcome : LLMAssessOutcome),
        0 ≤ (assessLeadWithLlm raw_notes outcome).lead_score ∧
        (assessLeadWithLlm raw_notes outcome).lead_score ≤ 10 ∧
        ∃ k : ℤ, (assessLeadWithLlm raw_notes outcome).lead_score = (k : ℚ) / 10) ∧
    (∀ raw_notes, (assessLeadWithLlm raw_notes .failure).lead_score = 5) ∧
    (assessLeadWithLlm "" (.parsed "s" (.num 15) "r")).lead_score = 10 ∧
    (assessLeadWithLlm "" (.parsed "s" (.num (-3)) "r")).lead_score = 0 ∧
    (assessLeadWithLlm "" (.parsed "s" (.str "8.5/10") "r")).lead_score = 17/2 := by
  have hfive : ∀ notes, (assessDefault notes).lead_score = 5 := fun _ => rfl
  refine ⟨?_, fun notes => rfl, ?_, ?_, ?_⟩
  · intro notes outcome
    cases outcome with
    | failure =>
        refine ⟨by norm_num [assessLeadWithLlm, assessDefault], ?_, 50, ?_⟩ <;>
          norm_num [assessLeadWithLlm, assessDefault]
    | parsed summary raw reason =>
        cases hc : coerceScore raw with
        | error e =>
            refine ⟨?_, ?_, 50, ?_⟩ <;>
              simp [assessLeadWithLlm, hc, assessDefault] <;> norm_num
        | ok q =>
            simp only [assessLeadWithLlm, hc]
            obtain ⟨k, hk⟩ := pyRound1_tenths q
            exact ⟨(clamp_bounds _).1, (clamp_bounds _).2, clamp_tenths _ k hk⟩
  · have h15 : pyRound1 15 = ((150 : ℤ) : ℚ) / 10 := pyRound1_int _ _ (by norm_num)
    simp only [assessLeadWithLlm, coerceScore, h15]
    norm_num [min_def, max_def]
  · have h3 : pyRound1 (-3) = ((-30 : ℤ) : ℚ) / 10 := pyRound1_int _ _ (by norm_num)
    simp only [assessLeadWithLlm, coerceScore, h3]
    norm_num [min_def, max_def]
  · have hc : coerceScore (.str "8.5/10") =
        .ok (((8 : ℕ) : ℚ) + ((5 : ℕ) : ℚ) / ((10 : ℚ) ^ (1 : ℕ))) := rfl
    have hq : (((8 : ℕ) : ℚ) + ((5 : ℕ) : ℚ) / ((10 : ℚ) ^ (1 : ℕ))) * 10 =
        ((85 : ℤ) : ℚ) := by norm_num
    simp only [assessLeadWithLlm, hc, pyRound1_int _ _ hq]
    norm_num [min_def, max_def]

/-- Claim C4 counterexample: a query whose best match scores 0.5 - below
the configured `MIN_RELEVANCE` threshold (default 0.7) - still gets a
composed answer citing a source, because `retriever_tool` bypasses the
configured retriever and filters at the hard-coded 0.35 instead. -/
theorem retriever_threshold_counterexample :
    (1/2 : ℚ) < MIN_RELEVANCE ∧
    isComposedAnswer (retrieverTool [⟨"chunk", "doc.txt", 1/2⟩]) = true ∧
    citedSources (retrieverTool [⟨"chunk", "doc.txt", 1/2⟩]) = ["doc.txt"] := by
  have hfil : List.filter (fun d : ScoredDoc => decide (d.score ≥ 35/100))
      [⟨"chunk", "doc.txt", 1/2⟩] = [⟨"chunk", "doc.txt", 1/2⟩] := by
    simp only [List.filter_cons, List.filter_nil, ge_iff_le,
      decide_eq_true_eq]
    rw [if_pos (by norm_num : (35 : ℚ)/100 ≤ 1/2)]
  refine ⟨by norm_num [MIN_RELEVANCE], ?_, ?_⟩ <;>
    · simp only [retrieverTool, hfil]
      rfl

/-- Claim C4 (amended): the threshold `retriever_tool` actually applies is
the fixed 0.35 of its own filter, not the configured `MIN_RELEVANCE`: when
every retrieved chunk scores below 0.35 the reply is a "not found" response
citing zero sources, and every source a composed answer cites comes from a
chunk scoring at least 0.35. -/
theorem retriever_min_relevance_filter :
    (∀ docs : List ScoredDoc,
        (∀ d ∈ docs, d.score < 35/100) →
        citedSources (retrieverTool docs) = [] ∧
        isComposedAnswer (retrieverTool docs) = false) ∧
    (∀ (docs : List ScoredDoc) (src : String),
        src ∈ citedSources (retrieverTool docs) →
        ∃ d ∈ docs, d.source = src ∧ 35/100 ≤ d.score) := by
  constructor
  · intro docs h
    have hf : docs.filter (fun d => decide (d.score ≥ 35/100)) = [] := by
      rw [List.filter_eq_nil_iff]
      intro d hd
      simp only [decide_eq_true_eq, ge_iff_le, not_le]
      exact h d hd
    unfold retrieverTool
    by_cases he : docs.isEmpty <;>
      simp [he, hf, citedSources, isComposedAnswer]
  · intro docs src hsrc
    unfold retrieverTool at hsrc
    by_cases he : docs.isEmpty
    · simp [he, citedSources] at hsrc
    · simp only [he, Bool.false_eq_true, if_false] at hsrc
      by_cases hr : (docs.filter (fun d => decide (d.score ≥ 35/100))).isEmpty
      · simp [hr, citedSources] at hsrc
      · simp only [hr, Bool.false_eq_true, if_false, citedSources,
          List.mem_dedup, List.mem_map] at hsrc
        obtain ⟨d, hd, rfl⟩ := hsrc
        have hm := List.mem_filter.mp hd
        exact ⟨d, hm.1, rfl, (of_decide_eq_true hm.2 : d.score ≥ 35/100)⟩

/-- Witness for `retriever_min_relevance_filter` on a single low-scoring
chunk. -/
theorem retriever_min_relevance_filter_witness :
    citedSources (retrieverTool [⟨"c", "s.txt", 1/10⟩]) = [] ∧
    isComposedAnswer (retrieverTool [⟨"c", "s.txt", 1/10⟩]) = false :=
  retriever_min_relevance_filter.1 [⟨"c", "s.txt", 1/10⟩]
    (by intro d hd; simp at hd; rw [hd]; norm_num)

/-- Claim C1 counterexample: create a lead with score 2 (status computed as
Cold), then `update_lead(id, lead_score=9)` with no status argument.  The
stored status stays Cold although `_score_to_status 9` is Hot - update_lead
performs a raw partial UPDATE and never recomputes status. -/
theorem update_lead_stale_status_counterexample :
    ((getLead
        (updateLead
          (createLead ⟨1, []⟩ 0 "Jane" "jane@co.com" "" "" 2 none
            "" "" "" "AI Assistant").1
          1 { lead_score := some 9 } 1).1
        1).map (fun l => (l.lead_score, l.status)) =
      some ((9 : ℚ), Status.cold)) ∧
    scoreToStatus 9 = Status.hot := by
  exact ⟨rfl, by decide⟩

/-- Claim C1 (amended): `create_lead` with no status override stores a
status consistent with the score, but `update_lead` writes exactly the
supplied fields and never recomputes status: when the patch carries no
status, every row keeps its previous status (same id), so an update that
changes only `lead_score` leaves the old - possibly now inconsistent -
status in place. -/
theorem lead_status_consistency_amended :
    (∀ (crm : CRM) (now : Nat) (name email company interest : String)
        (score : ℚ) (notes mid mtime src : String),
      ∀ l ∈ ((createLead crm now name email company interest score none
          notes mid mtime src).1).leads,
        l ∈ crm.leads ∨ l.status = scoreToStatus score) ∧
    (∀ (crm : CRM) (lead_id : Nat) (p : LeadPatch) (now : Nat),
      p.status = none →
      ∀ l' ∈ ((updateLead crm lead_id p now).1).leads,
        ∃ l ∈ crm.leads, l'.status = l.status ∧ l'.id = l.id) := by
  constructor
  · intro crm now name email company interest score notes mid mtime src l hl
    simp only [createLead, Option.getD_none, List.mem_append,
      List.mem_singleton] at hl
    rcases hl with h | h
    · exact .inl h
    · right; rw [h]
  · intro crm lead_id p now hp l' hl'
    unfold updateLead at hl'
    by_cases he : p.isEmpty
    · simp only [he, if_true] at hl'
      exact ⟨l', hl', rfl, rfl⟩
    · simp only [he, Bool.false_eq_true, if_false, List.mem_map] at hl'
      obtain ⟨l, hl, rfl⟩ := hl'
      refine ⟨l, hl, ?_, ?_⟩ <;> by_cases hid : l.id = lead_id <;>
        simp [hid, applyPatch, hp]

/-- Witness for `lead_status_consistency_amended` on a one-row store and a
score-only patch. -/
theorem lead_status_consistency_amended_witness :
    ∃ l ∈ (⟨2, [⟨1, "A", "a@x", "", "", 2, .cold, "", "", "", "T", 0, 0⟩]⟩ :
        CRM).leads,
      (applyPatch ⟨1, "A", "a@x", "", "", 2, .cold, "", "", "", "T", 0, 0⟩
          { lead_score := some 9 } 1).status = l.status ∧
      (applyPatch ⟨1, "A", "a@x", "", "", 2, .cold, "", "", "", "T", 0, 0⟩
          { lead_score := some 9 } 1).id = l.id :=
  lead_status_consistency_amended.2
    ⟨2, [⟨1, "A", "a@x", "", "", 2, .cold, "", "", "", "T", 0, 0⟩]⟩ 1
    { lead_score := some 9 } 1 rfl
    (applyPatch ⟨1, "A", "a@x", "", "", 2, .cold, "", "", "", "T", 0, 0⟩
      { lead_score := some 9 } 1) (by decide)

/-- An always-free calendar oracle. -/
def alwaysFree : Nat → Nat → Bool := fun _ _ => true

/-- The search loop never collects more than `n` suggestions. -/
theorem suggestGo_length_le (avail : Nat → Nat → Bool) (d n : Nat) :
    ∀ (fuel current : Nat) (acc : List Slot), acc.length ≤ n →
      (suggestGo avail d n fuel current acc).1.length ≤ n := by
  intro fuel
  induction fuel with
  | zero => intro current acc h; simpa [suggestGo] using h
  | succ f ih =>
      intro current acc h
      rw [suggestGo]
      by_cases hc : n ≤ acc.length
      · simpa [hc] using h
      · simp only [hc, if_false]
        apply ih
        by_cases ha : avail current (current + d) <;> simp [ha] <;> omega

/-- The search loop performs at most `fuel` availability probes. -/
theorem suggestGo_probes_le (avail : Nat → Nat → Bool) (d n : Nat) :
    ∀ (fuel current : Nat) (acc : List Slot),
      (suggestGo avail d n fuel current acc).2 ≤ fuel := by
  intro fuel
  induction fuel with
  | zero => intro current acc; simp [suggestGo]
  | succ f ih =>
      intro current acc
      rw [suggestGo]
      by_cases hc : n ≤ acc.length
      · simp [hc]
      · simp only [hc, if_false]
        exact Nat.succ_le_succ (ih _ _)

/-- The post-step adjustment always lands within business hours. -/
theorem hourOf_adjust (t : Nat) :
    9 ≤ hourOf (adjustToBusinessHours t) ∧
    hourOf (adjustToBusinessHours t) < 18 := by
  unfold adjustToBusinessHours skipWeekend replaceHour9 hourOf weekdayOf
  split_ifs <;> omega

/-- Every collected suggestion is either carried in from the accumulator,
starts at the instant currently probed, or starts within business hours. -/
theorem suggestGo_mem (avail : Nat → Nat → Bool) (d n : Nat) :
    ∀ (fuel current : Nat) (acc : List Slot),
      ∀ s ∈ (suggestGo avail d n fuel current acc).1,
        s ∈ acc ∨ s.start = current ∨
          (9 ≤ hourOf s.start ∧ hourOf s.start < 18) := by
  intro fuel
  induction fuel with
  | zero => intro current acc s hs; exact .inl (by simpa [suggestGo] using hs)
  | succ f ih =>
      intro current acc s hs
      rw [suggestGo] at hs
      by_cases hc : n ≤ acc.length
      · simp only [hc, if_true] at hs
        exact .inl hs
      · simp only [hc, if_false] at hs
        rcases ih (adjustToBusinessHours (current + 60)) _ s hs with h | h | h
        · by_cases ha : avail current (current + d)
          · simp only [ha, if_true, List.mem_append, List.mem_singleton] at h
            rcases h with h | h
            · exact .inl h
            · exact .inr (.inl (by rw [h]))
          · simp only [ha, Bool.false_eq_true, if_false] at h
            exact .inl h
        · exact .inr (.inr (h ▸ hourOf_adjust (current + 60)))
        · exact .inr (.inr h)

/-- Claim C3 counterexample: with an always-free calendar and the original
request at Saturday 20:00 (minute 8400 from a Monday 00:00 epoch), the very
first suggested slot is the original instant itself - hour 20, a Saturday -
outside business hours and not on a business day: the walk only enforces
the business-hour restriction when a step leaves the 09:00-18:00 window,
never on the originally requested start. -/
theorem suggest_alternatives_counterexample :
    suggestAlternativeTimes alwaysFree 8400 60 3 =
      some [⟨8400, 8460⟩, ⟨10620, 10680⟩, ⟨10680, 10740⟩] ∧
    hourOf 8400 = 20 ∧ weekdayOf 8400 = 5 := by
  exact ⟨by decide, by decide, by decide⟩

/-- Claim C3 (amended): the search returns at most `num_suggestions` slots
and performs at most 50 availability probes, and every suggested slot other
than the originally requested start time itself begins within business
hours (09:00-18:00); the business-day restriction is only applied when the
walk steps outside that window, so the original start (any hour, any day)
and in-hours weekend times can still be suggested. -/
theorem suggest_alternatives_amended :
    ∀ (avail : Nat → Nat → Bool) (start duration num_suggestions : Nat),
      suggestProbes avail start duration num_suggestions ≤ 50 ∧
      ∀ sugs, suggestAlternativeTimes avail start duration num_suggestions =
          some sugs →
        sugs.length ≤ num_suggestions ∧
        ∀ s ∈ sugs, s.start = start ∨
          (9 ≤ hourOf s.start ∧ hourOf s.start < 18) := by
  intro avail start d n
  refine ⟨suggestGo_probes_le avail d n 50 start [], ?_⟩
  intro sugs hs
  unfold suggestAlternativeTimes at hs
  by_cases he : (suggestGo avail d n 50 start []).1.isEmpty
  · simp [he] at hs
  · simp only [he, Bool.false_eq_true, if_false, Option.some.injEq] at hs
    subst hs
    refine ⟨suggestGo_length_le avail d n 50 start [] (by simp), ?_⟩
    intro s hmem
    rcases suggestGo_mem avail d n 50 start [] s hmem with h | h | h
    · simp at h
    · exact .inl h
    · exact .inr h

/-- Witness for `suggest_alternatives_amended` at the concrete search of
the counterexample's inputs. -/
theorem suggest_alternatives_amended_witness :
    suggestProbes alwaysFree 8400 60 3 ≤ 50 ∧
    ((⟨10620, 10680⟩ : Slot).start = 8400 ∨
      (9 ≤ hourOf (⟨10620, 10680⟩ : Slot).start ∧
        hourOf (⟨10620, 10680⟩ : Slot).start < 18)) :=
  ⟨(suggest_alternatives_amended alwaysFree 8400 60 3).1,
   ((suggest_alternatives_amended alwaysFree 8400 60 3).2
      [⟨8400, 8460⟩, ⟨10620, 10680⟩, ⟨10680, 10740⟩] (by decide)).2
     ⟨10620, 10680⟩ (by decide)⟩

/-- Claim C9: once the booking succeeded (the calendar returned an event),
the outcome of the lead-capture step never undoes it: for every capture
result - including a raised exception - the function returns the success
confirmation carrying the created event's id and links, with the capture
failure reported inside the message as
"⚠️ Lead capture failed: <error>". -/
theorem capture_failure_keeps_booking :
    (∀ (start dur : ℚ) (busyResult : Except String (List (ℚ × ℚ)))
        (alternatives : String) (event : GoogleEvent)
        (captureResult : Except String String)
        (name org proj title desc : String),
      (checkAvailability start (start + dur) busyResult).available = true →
      scheduleByNaturalWithLeadCapture (.ok (start, dur)) busyResult
          alternatives (.ok (some event)) captureResult
          name org proj title desc =
        .success (autoTitle title name) event.id event.htmlLink
          (meetLinkOf event) (leadStatusLine captureResult)) ∧
    (∀ e, leadStatusLine (.error e) = "⚠️ Lead capture failed: " ++ e) := by
  constructor
  · intro start dur busy alt ev cap name org proj title desc h
    unfold scheduleByNaturalWithLeadCapture
    simp [h]
  · intro e
    rfl

/-- Witness for `capture_failure_keeps_booking`: a failing free/busy query
(slot assumed available) and a failing lead capture still yield the success
confirmation with the event intact. -/
theorem capture_failure_keeps_booking_witness :
    scheduleByNaturalWithLeadCapture (.ok (600, 60)) (.error "api down")
        "alts" (.ok (some ⟨"evt1", "http-cal", ["http-meet"]⟩))
        (.error "boom") "Jane" "Acme" "AR app" "" "" =
      .success (autoTitle "" "Jane") "evt1" "http-cal"
        (meetLinkOf ⟨"evt1", "http-cal", ["http-meet"]⟩)
        (leadStatusLine (.error "boom")) :=
  capture_failure_keeps_booking.1 600 60 (.error "api down") "alts"
    ⟨"evt1", "http-cal", ["http-meet"]⟩ (.error "boom")
    "Jane" "Acme" "AR app" "" "" rfl
